import Mathlib

/-!
Verification of the chammakbot Telegram webhook handlers.

The repository contains three near-identical single-file handlers:
* `src/handler.py`  - AWS Lambda handler `quote(event, context)`, wrapped in a
  broad try/except, reply catalog of 14 strings, token read from the process
  environment (`TELEGRAM_TOKEN`).
* `src/main.py`     - Flask handler `bot()` with NO try/except, reply catalog
  of 10 entries (two of them `str.encode("utf-8")` bytes), hardcoded token.
* `src/main2.py`    - Flask handler `bot()` identical to main.py but with the
  same 14-entry catalog as handler.py.

We shallowly embed the Python values produced by `json.loads` as `PyVal`,
model each fallible Python operation as an `Except PyErr` computation, and
translate the handler bodies line by line.  The random draw
`random.randint(1, len(cat))` is modelled by a parameter `r` together with
the predicate `randintDraw r cat.length` (randint is inclusive on both ends).
-/

namespace Chammakbot

/-- Python exception kinds that the handler code can raise. -/
inductive PyErr where
  | keyError
  | typeError
  | attrError
  | indexError
  | jsonError
deriving DecidableEq, Repr

/-- Values produced by Python `json.loads`: null, booleans, integers,
strings, arrays and objects.  (JSON floats never occur in the payloads the
claims are about and are not modelled.)  Objects are insertion-ordered
association lists, as Python dicts are. -/
inductive PyVal where
  | null
  | bool (b : Bool)
  | int (n : Int)
  | str (s : String)
  | list (xs : List PyVal)
  | dict (kvs : List (String × PyVal))

/-- First binding of a key in an association list, i.e. Python dict lookup
(for dicts built by `json.loads` keys are unique, so first = only). -/
def lookupKey : List (String × PyVal) → String → Option PyVal
  | [], _ => Option.none
  | (k, v) :: rest, key => if k = key then some v else lookupKey rest key

/-- Python subscript `v[k]` with a string key: succeeds only on a dict that
has the key (otherwise KeyError), any non-dict raises TypeError. -/
def pyGet : PyVal → String → Except PyErr PyVal
  | .dict kvs, k =>
    match lookupKey kvs k with
    | some v => .ok v
    | Option.none => .error .keyError
  | _, _ => .error .typeError

/-- Substring test on character lists: does `sub` occur contiguously in the
second list? -/
def containsSub (sub : List Char) : List Char → Bool
  | [] => sub.isEmpty
  | c :: rest => sub.isPrefixOf (c :: rest) || containsSub sub rest

/-- Python `k in v` for a string `k`: key membership for dicts, substring
test for strings, element membership for lists, TypeError otherwise. -/
def pyIn (k : String) : PyVal → Except PyErr Bool
  | .dict kvs => .ok (lookupKey kvs k).isSome
  | .str s => .ok (containsSub k.data s.data)
  | .list xs => .ok (xs.any (fun v => match v with | .str s => s = k | _ => false))
  | _ => .error .typeError

/-- Python `v.startswith(p)`: only strings have the attribute
(AttributeError otherwise).  The comparison is a code-point prefix test,
expressed on the character lists of the two strings. -/
def pyStartswith (v : PyVal) (p : String) : Except PyErr Bool :=
  match v with
  | .str s => .ok (p.data.isPrefixOf s.data)
  | _ => .error .attrError

mutual

/-- Python `repr` of a json-loaded value (string escaping inside repr is not
modelled; no catalog entry or claim depends on it). -/
def pyRepr : PyVal → String
  | .null => "None"
  | .bool true => "True"
  | .bool false => "False"
  | .int n => toString n
  | .str s => "\x27" ++ s ++ "\x27"
  | .list xs => "[" ++ pyReprItems xs ++ "]"
  | .dict kvs => "\x7b" ++ pyReprEntries kvs ++ "\x7d"

/-- Comma-joined reprs of list items. -/
def pyReprItems : List PyVal → String
  | [] => ""
  | [v] => pyRepr v
  | v :: rest => pyRepr v ++ ", " ++ pyReprItems rest

/-- Comma-joined `key: value` reprs of dict entries. -/
def pyReprEntries : List (String × PyVal) → String
  | [] => ""
  | [(k, v)] => "\x27" ++ k ++ "\x27: " ++ pyRepr v
  | (k, v) :: rest => "\x27" ++ k ++ "\x27: " ++ pyRepr v ++ ", " ++ pyReprEntries rest

end

/-- Python `str(v)`: a string renders as itself (no quoting, no percent
encoding), everything else as its repr. -/
def pyStr : PyVal → String
  | .str s => s
  | v => pyRepr v

/-- Reply catalog `chammakisms` of src/handler.py lines 34 and of
src/main2.py (14 entries, identical literals). -/
def chammakisms : List String :=
  ["Lovely dinner with special",
   "You wanna come see my coffee machine?",
   "I\x27m so important that people want me killed.. yo!",
   "Hi. I\x27m roll number 2.",
   "You are too cool for me Khushboo Sharma!! You are too awesome for me! :\x27(",
   "Let me be your Chammak Challo",
   "A coffee machine is a good investment",
   "The cloud bro",
   "I don\x27t go to shady places",
   "I can\x27t sleep without the AC",
   "I wish Mallika would like me.",
   "*snakes hand in between you and a girl*",
   "I have a patent in the US.",
   "It\x27s all dynamic bro"]

/-- The wrench emoji `u-0001F527` bound to `wrench` in src/main.py. -/
def wrench : String := "🔧"

/-- The wine emoji `u-0001F377` bound to `wine` in src/main.py. -/
def wine : String := "🍷"

/-- Reply catalog `chammakisms` of src/main.py (10 entries).  Entries 0 and 9
are built as `(s + emoji).encode("utf-8")` bytes objects in the source; they
are modelled by their character content, which is all the claims inspect. -/
def chammakismsMain : List String :=
  ["Is this a wrench or a spanner " ++ wrench,
   "How dare are you.",
   "I\x27m sitting like an awkward intern",
   "Hey Sandesh Is Kartik there",
   "I\x27m getting stress rashes because of this shit hole",
   "You should get her to talk to prajwal about clones and check if she goes mad or not",
   "Welcome to monogamy",
   "You know I had a doctor called rex. Misdiagnosed me with malaria When I had jaundice",
   "I\x27m going to go eat my sweet potato in silence",
   "Drown sorrow with " ++ wine]

/-- Possible outputs of `random.randint(1, n)`: the draw is inclusive on
both ends. -/
def randintDraw (r n : Nat) : Prop := 1 ≤ r ∧ r ≤ n

instance (r n : Nat) : Decidable (randintDraw r n) := by
  unfold randintDraw; infer_instance

/-- Index used to select the reply: `random.randint(1, len(cat)) - 1`,
applied to the draw `r`.  (For any actual draw `r ≥ 1`, so natural
subtraction agrees with Python.) -/
def selectIndex (r : Nat) : Nat := r - 1

/-- Parameters of one outbound `sendMessage` call: the dict literal
`chat_id` / `text` built in the handlers. -/
structure Call where
  chat_id : PyVal
  text : String

/-- Outcome of the shared decision logic of the handlers, up to and
including the `sendMessage` parameter construction. -/
inductive Step where
  | raised (e : PyErr)
  | notCmd
  | sent (c : Call)

/-- Decision logic applied to the `message` object `m`
(`webhook["message"]` already looked up).  Mirrors, in order:
`if "text" in webhook["message"]`, then
`if webhook["message"]["text"].startswith("/quote")`, then the params dict
(`chat_id` from `webhook["message"]["chat"]["id"]` first, then `text` from
`cat[randint(1, len(cat)) - 1]`). -/
def dispatchMsg (m : PyVal) (r : Nat) (cat : List String) : Step :=
  match pyIn "text" m with
  | .error e => .raised e
  | .ok false => .notCmd
  | .ok true =>
    match pyGet m "text" with
    | .error e => .raised e
    | .ok t =>
      match pyStartswith t "/quote" with
      | .error e => .raised e
      | .ok false => .notCmd
      | .ok true =>
        match pyGet m "chat" with
        | .error e => .raised e
        | .ok chat =>
          match pyGet chat "id" with
          | .error e => .raised e
          | .ok cid =>
            match cat.get? (selectIndex r) with
            | Option.none => .raised .indexError
            | some txt => .sent ⟨cid, txt⟩

/-- Decision logic applied to the parsed webhook object: looks up
`webhook["message"]` and hands it to `dispatchMsg`. -/
def dispatch (wb : PyVal) (r : Nat) (cat : List String) : Step :=
  match pyGet wb "message" with
  | .error e => .raised e
  | .ok m => dispatchMsg m r cat

/-- Result of the Lambda handler `quote`: the dict
`statusCode: 200` it returns, together with the `sendMessage` calls it made
(recorded by the model; the code performs them via `bot_api`). -/
structure QuoteResult where
  calls : List Call
  statusCode : Nat

/-- Lambda handler `quote(event, context)` of src/handler.py lines 27-41.
`body` is the result of `json.loads(event["body"])`; `Option.none` models a
missing body or a JSON parse failure (the raised exception is caught).  All
exceptions inside the try block are caught and printed, and the handler
returns `statusCode: 200` unconditionally.  The `json.loads` of the
`sendMessage` response can also raise, after the call was made; it is caught
too and its result `json_data` is never used, so it does not affect the
observable result. -/
def quote (body : Option PyVal) (r : Nat) : QuoteResult :=
  match body with
  | Option.none => ⟨[], 200⟩
  | some wb =>
    match dispatch wb r chammakisms with
    | .raised _ => ⟨[], 200⟩
    | .notCmd => ⟨[], 200⟩
    | .sent c => ⟨[c], 200⟩

/-- The Python value the Lambda handler returns (src/handler.py line 41):
the dict literal with the single `statusCode` entry.  The same dict is
returned on every path - the handler never attaches a body or any textual
indication to its response. -/
def quoteReturnValue (body : Option PyVal) (r : Nat) : PyVal :=
  PyVal.dict [("statusCode", PyVal.int (Int.ofNat (quote body r).statusCode))]

/-- Result of the Flask handler `bot`: the `sendMessage` calls made, and
either the returned `(body, status)` pair or the exception that escaped the
handler (it has no try/except). -/
structure BotResult where
  calls : List Call
  resp : Except PyErr (String × Nat)

/-- Flask handler `bot()` of src/main.py lines 38-53 (same logic in
src/main2.py with the 14-entry catalog).  `body` is the result of
`json.loads(request.data)`, `Option.none` modelling a parse failure whose
exception escapes the handler.  On the command path the handler calls
`bot_api("sendMessage", "GET", params)` and then runs `json.loads` on the
response text: `tresp` is that parse result, `Option.none` modelling a
response that is not valid JSON, whose exception escapes after the call was
already made.  On success the handler returns `str(json_data), 200`; on the
non-command paths it returns `"Not a command", 200`. -/
def bot (body : Option PyVal) (r : Nat) (tresp : Option PyVal) : BotResult :=
  match body with
  | Option.none => ⟨[], .error .jsonError⟩
  | some wb =>
    match dispatch wb r chammakismsMain with
    | .raised e => ⟨[], .error e⟩
    | .notCmd => ⟨[], .ok ("Not a command", 200)⟩
    | .sent c =>
      match tresp with
      | Option.none => ⟨[c], .error .jsonError⟩
      | some j => ⟨[c], .ok (pyStr j, 200)⟩

/-- Python `os.environ[k]`: raises KeyError when the variable is absent. -/
def osEnvironGet (env : List (String × String)) (k : String) : Except PyErr String :=
  match env.lookup k with
  | some v => .ok v
  | Option.none => .error .keyError

/-- Module-level `TOKEN = os.environ["TELEGRAM_TOKEN"]` of src/handler.py
line 11, as a function of the process environment. -/
def TOKEN (env : List (String × String)) : Except PyErr String :=
  osEnvironGet env "TELEGRAM_TOKEN"

/-- Module-level `BASE_URL` of src/handler.py line 12: the string
`https://api.telegram.org/bot` followed by TOKEN and a trailing slash
(format string filled with TOKEN). -/
def BASE_URL (env : List (String × String)) : Except PyErr String :=
  (TOKEN env).map (fun t => "https://api.telegram.org/bot" ++ t ++ "/")

/-- The Lambda module serving one request: module import runs the `TOKEN`
and `BASE_URL` lines first (a KeyError there aborts initialization before
any request is handled), then the request is handled by `quote`. -/
def lambdaService (env : List (String × String)) (body : Option PyVal)
    (r : Nat) : Except PyErr QuoteResult :=
  (BASE_URL env).map (fun _ => quote body r)

/-- Python slice `path[:-1]`: all characters but the last. -/
def pySliceDropLast (s : String) : String := ⟨s.data.dropLast⟩

/-- A single outbound HTTP request: verb and full URL. -/
structure HttpRequest where
  verb : String
  url : String

/-- URL construction of `bot_api` (src/handler.py lines 15-20, identically
in src/main.py and src/main2.py): `path = BASE_URL + method_name`; if the
params dict is non-empty, append `?`, then for each param append
`param + "=" + str(params[param]) + "&"`, and finally drop the trailing
character with `path[:-1]`. -/
def buildPath (base method_name : String) (params : List (String × PyVal)) : String :=
  let path := base ++ method_name
  if params.isEmpty then path
  else
    pySliceDropLast
      (params.foldl (fun p kv => p ++ kv.1 ++ "=" ++ pyStr kv.2 ++ "&") (path ++ "?"))

/-- `bot_api(method_name, method, params)` of src/handler.py lines 14-25.
`net` models the network: the raw response text for a given request.  For
`method == "GET"` it returns `requests.get(path).text`, for
`method == "POST"` it returns `requests.post(path).text` (same
query-string URL), and for any other method it falls through and returns
`None` without issuing a request - modelled as `Option.none`. -/
def bot_api (base method_name method : String) (params : List (String × PyVal))
    (net : HttpRequest → String) : Option (HttpRequest × String) :=
  let path := buildPath base method_name params
  if method = "GET" then some (⟨"GET", path⟩, net ⟨"GET", path⟩)
  else if method = "POST" then some (⟨"POST", path⟩, net ⟨"POST", path⟩)
  else Option.none

/-- Key=value pairs joined by an ampersand, as the spec describes the query
string ("key=value pairs joined by an ampersand"). -/
def ampJoin : List String → String
  | [] => ""
  | [x] => x
  | x :: rest => x ++ "&" ++ ampJoin rest

/-- The request URL as the spec describes it: base endpoint, method name,
and when the mapping is non-empty a question mark followed by the joined
`key=value` pairs, each value rendered by plain `str` with no percent
encoding. -/
def specUrl (base method_name : String) (params : List (String × PyVal)) : String :=
  base ++ method_name ++
    (if params.isEmpty then ""
     else "?" ++ ampJoin (params.map (fun kv => kv.1 ++ "=" ++ pyStr kv.2)))

/-- Removal of the `from` entry of a message object (identity on
non-dicts): two message objects are sender-equivalent when they agree after
this scrubbing. -/
def eraseSender : PyVal → PyVal
  | .dict kvs => .dict (kvs.filter (fun kv => !(kv.1 == "from")))
  | v => v

/-- Removal of the sender information of a whole webhook payload: scrub the
`from` entry inside every `message` entry. -/
def scrubSender : PyVal → PyVal
  | .dict kvs =>
    .dict (kvs.map (fun kv => if kv.1 = "message" then (kv.1, eraseSender kv.2) else kv))
  | v => v

/-- A successful dict subscript implies the Python membership test on the
same key answers true. -/
theorem pyIn_of_pyGet {m v : PyVal} {k : String} (h : pyGet m k = .ok v) :
    pyIn k m = .ok true := by
  cases m <;> simp [pyGet] at h
  case dict kvs =>
    cases hl : lookupKey kvs k <;> simp [pyIn, hl] at h ⊢

/-- Reply selection with the randint draw is exact for any catalog: every
draw yields an in-bounds index, every index is hit by some draw, and the
selected entry is always a catalog element. -/
theorem selection_range_complete (cat : List String) :
    (∀ r, randintDraw r cat.length → selectIndex r < cat.length) ∧
    (∀ i, i < cat.length →
      ∃ r, randintDraw r cat.length ∧ selectIndex r = i) ∧
    (∀ r, randintDraw r cat.length →
      ∃ txt, txt ∈ cat ∧ cat.get? (selectIndex r) = some txt) := by
  refine ⟨?_, ?_, ?_⟩
  · intro r hr
    rcases hr with ⟨h1, h2⟩
    unfold selectIndex
    omega
  · intro i hi
    exact ⟨i + 1, ⟨by omega, by omega⟩, by unfold selectIndex; omega⟩
  · intro r hr
    rcases hr with ⟨h1, h2⟩
    have hlt : selectIndex r < cat.length := by unfold selectIndex; omega
    exact ⟨cat.get ⟨selectIndex r, hlt⟩, List.get_mem _ _ hlt,
      List.get?_eq_get hlt⟩

/-- C5: reply selection ranges over exactly the catalog indices, for the
14-entry catalog of src/handler.py and the 10-entry catalog of src/main.py
alike.  For each catalog: every randint draw yields an index below the
catalog length, every index is hit by some draw value, and the selected
entry is always an element of the catalog. -/
theorem reply_selection_uniform_range :
    ((∀ r, randintDraw r chammakisms.length →
       selectIndex r < chammakisms.length) ∧
     (∀ i, i < chammakisms.length →
       ∃ r, randintDraw r chammakisms.length ∧ selectIndex r = i) ∧
     (∀ r, randintDraw r chammakisms.length →
       ∃ txt, txt ∈ chammakisms ∧
         chammakisms.get? (selectIndex r) = some txt)) ∧
    ((∀ r, randintDraw r chammakismsMain.length →
       selectIndex r < chammakismsMain.length) ∧
     (∀ i, i < chammakismsMain.length →
       ∃ r, randintDraw r chammakismsMain.length ∧ selectIndex r = i) ∧
     (∀ r, randintDraw r chammakismsMain.length →
       ∃ txt, txt ∈ chammakismsMain ∧
         chammakismsMain.get? (selectIndex r) = some txt)) :=
  ⟨selection_range_complete chammakisms,
   selection_range_complete chammakismsMain⟩

/-- Witness for C5 at concrete draws on both catalogs: the extreme draws
are in bounds, the extreme indices are hit, and concrete draws select
catalog elements. -/
theorem reply_selection_uniform_range_witness :
    (selectIndex 14 < chammakisms.length ∧
     (∃ r, randintDraw r chammakisms.length ∧ selectIndex r = 0) ∧
     (∃ txt, txt ∈ chammakisms ∧ chammakisms.get? (selectIndex 1) = some txt)) ∧
    (selectIndex 10 < chammakismsMain.length ∧
     (∃ r, randintDraw r chammakismsMain.length ∧ selectIndex r = 9) ∧
     (∃ txt, txt ∈ chammakismsMain ∧
       chammakismsMain.get? (selectIndex 10) = some txt)) :=
  ⟨⟨reply_selection_uniform_range.1.1 14 (by decide),
    reply_selection_uniform_range.1.2.1 0 (by decide),
    reply_selection_uniform_range.1.2.2 1 (by decide)⟩,
   ⟨reply_selection_uniform_range.2.1 10 (by decide),
    reply_selection_uniform_range.2.2.1 9 (by decide),
    reply_selection_uniform_range.2.2.2 10 (by decide)⟩⟩

/-- C8: both reply catalogs are non-empty literal lists, and for every
value the randint draw can produce the computed index is in bounds, so the
selection never fails an out-of-range access. -/
theorem catalog_index_in_bounds :
    0 < chammakisms.length ∧ 0 < chammakismsMain.length ∧
    (∀ r, randintDraw r chammakisms.length →
      selectIndex r < chammakisms.length ∧
        (chammakisms.get? (selectIndex r)).isSome) ∧
    (∀ r, randintDraw r chammakismsMain.length →
      selectIndex r < chammakismsMain.length ∧
        (chammakismsMain.get? (selectIndex r)).isSome) := by
  refine ⟨by decide, by decide, ?_, ?_⟩
  · intro r hr
    rcases hr with ⟨h1, h2⟩
    have hlt : selectIndex r < chammakisms.length := by unfold selectIndex; omega
    exact ⟨hlt, by rw [List.get?_eq_get hlt]; rfl⟩
  · intro r hr
    rcases hr with ⟨h1, h2⟩
    have hlt : selectIndex r < chammakismsMain.length := by
      unfold selectIndex; omega
    exact ⟨hlt, by rw [List.get?_eq_get hlt]; rfl⟩

/-- Witness for C8 at the extreme draws of each catalog. -/
theorem catalog_index_in_bounds_witness :
    (selectIndex 14 < chammakisms.length ∧
      (chammakisms.get? (selectIndex 14)).isSome) ∧
    (selectIndex 10 < chammakismsMain.length ∧
      (chammakismsMain.get? (selectIndex 10)).isSome) :=
  ⟨catalog_index_in_bounds.2.2.1 14 (by decide),
   catalog_index_in_bounds.2.2.2 10 (by decide)⟩

/-- C10: for an HTTP method argument that is neither GET nor POST,
`bot_api` issues no request and returns `None`. -/
theorem unknown_http_method_no_request (base mname m : String)
    (params : List (String × PyVal)) (net : HttpRequest → String)
    (hg : m ≠ "GET") (hp : m ≠ "POST") :
    bot_api base mname m params net = Option.none := by
  unfold bot_api
  simp [hg, hp]

/-- Witness for C10: a PUT call returns nothing. -/
theorem unknown_http_method_no_request_witness :
    bot_api "https://api.telegram.org/botT/" "sendMessage" "PUT"
      [("chat_id", PyVal.int 42)] (fun _ => "") = Option.none :=
  unknown_http_method_no_request _ _ _ _ _ (by decide) (by decide)

/-- C7: every execution path of either handler issues at most one outbound
`sendMessage` call. -/
theorem at_most_one_outbound_call (body : Option PyVal) (r : Nat)
    (tresp : Option PyVal) :
    (quote body r).calls.length ≤ 1 ∧ (bot body r tresp).calls.length ≤ 1 := by
  constructor
  · cases body with
    | none => simp [quote]
    | some wb => cases h : dispatch wb r chammakisms <;> simp [quote, h]
  · cases body with
    | none => simp [bot]
    | some wb =>
      cases h : dispatch wb r chammakismsMain <;> simp [bot, h]
      cases tresp <;> simp

/-- Counterexample for C3: the Flask handler `bot` has no try/except, so
the valid-JSON body with no `message` key raises a KeyError that escapes
the handler instead of a 200 response. -/
theorem flask_handler_propagates_parse_error :
    bot (some (PyVal.dict [])) 1 Option.none
      = ⟨[], Except.error PyErr.keyError⟩ := rfl

/-- C3 (amended): the Lambda handler `quote` catches every parse or
key-access error and returns status 200 for every body and draw. -/
theorem lambda_handler_always_200 (body : Option PyVal) (r : Nat) :
    (quote body r).statusCode = 200 := by
  cases body with
  | none => rfl
  | some wb => cases h : dispatch wb r chammakisms <;> simp [quote, h]

/-- C4: the token is read from the process environment at module
initialization; if `TELEGRAM_TOKEN` is absent the module fails with a
KeyError before any request is handled, and if it is present the request is
served with that token. -/
theorem token_required_at_startup (env : List (String × String))
    (body : Option PyVal) (r : Nat) :
    (List.lookup "TELEGRAM_TOKEN" env = Option.none →
      lambdaService env body r = Except.error PyErr.keyError) ∧
    (∀ t, List.lookup "TELEGRAM_TOKEN" env = some t →
      TOKEN env = Except.ok t ∧
        lambdaService env body r = Except.ok (quote body r)) := by
  constructor
  · intro h
    simp [lambdaService, BASE_URL, TOKEN, osEnvironGet, h, Except.map]
  · intro t h
    simp [lambdaService, BASE_URL, TOKEN, osEnvironGet, h, Except.map]

/-- Witness for C4: an empty environment aborts initialization with a
KeyError, and an environment holding the token initializes with it. -/
theorem token_required_at_startup_witness :
    lambdaService [] Option.none 1 = Except.error PyErr.keyError ∧
    TOKEN [("TELEGRAM_TOKEN", "tok")] = Except.ok "tok" :=
  ⟨(token_required_at_startup [] Option.none 1).1 rfl,
   ((token_required_at_startup [("TELEGRAM_TOKEN", "tok")] Option.none 1).2
      "tok" rfl).1⟩

/-- The parameter fold of `bot_api` produces the joined pairs with one
trailing ampersand. -/
theorem foldl_query (ps : List (String × PyVal)) (acc : String) (h : ps ≠ []) :
    ps.foldl (fun p kv => p ++ kv.1 ++ "=" ++ pyStr kv.2 ++ "&") acc
      = acc ++ ampJoin (ps.map (fun kv => kv.1 ++ "=" ++ pyStr kv.2)) ++ "&" := by
  induction ps generalizing acc with
  | nil => exact absurd rfl h
  | cons x rest ih =>
    cases rest with
    | nil => simp [ampJoin, String.append_assoc]
    | cons y t =>
      rw [List.foldl_cons, ih _ (by simp)]
      simp [ampJoin, String.append_assoc]

/-- Dropping the last character of a string ending in an ampersand yields
the string without it. -/
theorem pySliceDropLast_amp (s : String) : pySliceDropLast (s ++ "&") = s := by
  unfold pySliceDropLast
  have h : (s ++ "&").data = s.data ++ ['&'] := by simp [String.data_append]
  rw [h, List.dropLast_concat]

/-- C6: for every method name and parameter mapping, the request URL is the
base endpoint followed by the method name and, for a non-empty mapping, a
question mark and the `key=value` pairs joined by ampersands with each
value rendered verbatim by `str` (no percent encoding); the same URL is
used for GET and for POST, and the raw response text is returned. -/
theorem request_url_construction (base mname : String)
    (params : List (String × PyVal)) (net : HttpRequest → String) :
    buildPath base mname params = specUrl base mname params ∧
    bot_api base mname "GET" params net
      = some (⟨"GET", specUrl base mname params⟩,
          net ⟨"GET", specUrl base mname params⟩) ∧
    bot_api base mname "POST" params net
      = some (⟨"POST", specUrl base mname params⟩,
          net ⟨"POST", specUrl base mname params⟩) := by
  have hb : buildPath base mname params = specUrl base mname params := by
    unfold buildPath specUrl
    cases hp : params.isEmpty with
    | true => simp
    | false =>
      have hne : params ≠ [] := by
        intro hnil
        rw [hnil] at hp
        exact Bool.noConfusion hp
      rw [if_neg (by simp [hp]), if_neg (by simp [hp]),
        foldl_query params _ hne, pySliceDropLast_amp]
      simp [String.append_assoc]
  refine ⟨hb, ?_, ?_⟩ <;> simp [bot_api, hb]

/-- On a payload whose message text is a string starting with /quote and
whose chat id is reachable, the decision logic reaches the send step with
that chat id and some catalog entry. -/
theorem dispatch_sent {wb m chat cid : PyVal} {txt : String} {r : Nat}
    {cat : List String}
    (h1 : pyGet wb "message" = .ok m)
    (h3 : pyGet m "text" = .ok (.str txt))
    (h4 : "/quote".data.isPrefixOf txt.data = true)
    (h5 : pyGet m "chat" = .ok chat)
    (h6 : pyGet chat "id" = .ok cid)
    (hr : randintDraw r cat.length) :
    ∃ reply, reply ∈ cat ∧ dispatch wb r cat = .sent ⟨cid, reply⟩ := by
  rcases hr with ⟨hr1, hr2⟩
  have hlt : selectIndex r < cat.length := by unfold selectIndex; omega
  refine ⟨cat.get ⟨selectIndex r, hlt⟩, List.get_mem _ _ hlt, ?_⟩
  simp [dispatch, dispatchMsg, h1, pyIn_of_pyGet h3, h3, pyStartswith, h4,
    h5, h6, List.getElem?_eq_getElem hlt, List.get_eq_getElem]

/-- C1: on an inbound payload whose message text starts with /quote, each
handler issues exactly one sendMessage call whose chat id is the inbound
`message.chat.id` and whose text is an element of its reply catalog, and
the handler answers with status 200. -/
theorem cmd_sends_single_catalog_reply
    {wb m chat cid : PyVal} {txt : String} {r1 r2 : Nat} (j : PyVal)
    (h1 : pyGet wb "message" = .ok m)
    (h3 : pyGet m "text" = .ok (.str txt))
    (h4 : "/quote".data.isPrefixOf txt.data = true)
    (h5 : pyGet m "chat" = .ok chat)
    (h6 : pyGet chat "id" = .ok cid)
    (hr1 : randintDraw r1 chammakisms.length)
    (hr2 : randintDraw r2 chammakismsMain.length) :
    (∃ reply, reply ∈ chammakisms ∧
      quote (some wb) r1 = ⟨[⟨cid, reply⟩], 200⟩) ∧
    (∃ reply, reply ∈ chammakismsMain ∧
      (bot (some wb) r2 (some j)).calls = [⟨cid, reply⟩] ∧
      (bot (some wb) r2 (some j)).resp = Except.ok (pyStr j, 200)) := by
  obtain ⟨y1, hm1, hd1⟩ := dispatch_sent h1 h3 h4 h5 h6 hr1
  obtain ⟨y2, hm2, hd2⟩ := dispatch_sent h1 h3 h4 h5 h6 hr2
  exact ⟨⟨y1, hm1, by simp [quote, hd1]⟩,
    ⟨y2, hm2, by simp [bot, hd2], by simp [bot, hd2]⟩⟩

/-- Witness for C1: the scenario payload with text `/quote`, chat id 42 and
sender id 7, draw 1 for each catalog, and an empty-object response body. -/
theorem cmd_sends_single_catalog_reply_witness :
    (∃ reply, reply ∈ chammakisms ∧
      quote (some (PyVal.dict [("message", PyVal.dict
          [("text", PyVal.str "/quote"),
           ("chat", PyVal.dict [("id", PyVal.int 42)]),
           ("from", PyVal.dict [("id", PyVal.int 7)])])])) 1
        = ⟨[⟨PyVal.int 42, reply⟩], 200⟩) ∧
    (∃ reply, reply ∈ chammakismsMain ∧
      (bot (some (PyVal.dict [("message", PyVal.dict
          [("text", PyVal.str "/quote"),
           ("chat", PyVal.dict [("id", PyVal.int 42)]),
           ("from", PyVal.dict [("id", PyVal.int 7)])])])) 1
          (some (PyVal.dict []))).calls = [⟨PyVal.int 42, reply⟩] ∧
      (bot (some (PyVal.dict [("message", PyVal.dict
          [("text", PyVal.str "/quote"),
           ("chat", PyVal.dict [("id", PyVal.int 42)]),
           ("from", PyVal.dict [("id", PyVal.int 7)])])])) 1
          (some (PyVal.dict []))).resp
        = Except.ok (pyStr (PyVal.dict []), 200)) :=
  cmd_sends_single_catalog_reply (PyVal.dict []) rfl rfl (by decide) rfl rfl
    (by decide) (by decide)

/-- Counterexample for C2: on the concrete non-command payload with text
`hello`, the Lambda handler `quote` returns the bare statusCode-200 dict:
the returned value has exactly the one `statusCode` entry, no `body` entry,
and no `Not a command` entry, so no not-a-command indication is returned,
contrary to the claim. -/
theorem lambda_non_cmd_no_indication :
    quoteReturnValue (some (PyVal.dict [("message", PyVal.dict
        [("text", PyVal.str "hello"),
         ("chat", PyVal.dict [("id", PyVal.int 42)])])])) 1
      = PyVal.dict [("statusCode", PyVal.int 200)] ∧
    pyIn "body" (quoteReturnValue (some (PyVal.dict [("message", PyVal.dict
        [("text", PyVal.str "hello"),
         ("chat", PyVal.dict [("id", PyVal.int 42)])])])) 1)
      = Except.ok false ∧
    pyIn "Not a command" (quoteReturnValue (some (PyVal.dict [("message",
        PyVal.dict [("text", PyVal.str "hello"),
         ("chat", PyVal.dict [("id", PyVal.int 42)])])])) 1)
      = Except.ok false :=
  ⟨rfl, rfl, rfl⟩

/-- C2 (amended): on a payload whose message carries no text entry, or a
text string not starting with /quote, neither handler issues any call and
both answer status 200; `bot` returns the `Not a command` indication in its
body, while `quote` returns the bare statusCode-200 object with no
indication. -/
theorem non_cmd_sends_nothing
    {wb m : PyVal} (r : Nat) (tresp : Option PyVal)
    (h1 : pyGet wb "message" = .ok m)
    (h2 : pyIn "text" m = .ok false ∨
      ∃ txt, pyGet m "text" = .ok (.str txt) ∧ "/quote".data.isPrefixOf txt.data = false) :
    quote (some wb) r = ⟨[], 200⟩ ∧
    quoteReturnValue (some wb) r = PyVal.dict [("statusCode", PyVal.int 200)] ∧
    bot (some wb) r tresp = ⟨[], Except.ok ("Not a command", 200)⟩ := by
  have hd : ∀ cat, dispatch wb r cat = .notCmd := by
    intro cat
    rcases h2 with h2 | ⟨txt, ht, hp⟩
    · simp [dispatch, dispatchMsg, h1, h2]
    · simp [dispatch, dispatchMsg, h1, pyIn_of_pyGet ht, ht, pyStartswith, hp]
  have hq : quote (some wb) r = ⟨[], 200⟩ := by simp [quote, hd]
  refine ⟨hq, ?_, by simp [bot, hd]⟩
  rw [quoteReturnValue, hq]
  rfl

/-- Witness for C2: the scenario payload with text `hello` and chat id 42,
draw 1, no response. -/
theorem non_cmd_sends_nothing_witness :
    quote (some (PyVal.dict [("message", PyVal.dict
        [("text", PyVal.str "hello"),
         ("chat", PyVal.dict [("id", PyVal.int 42)])])])) 1 = ⟨[], 200⟩ ∧
    quoteReturnValue (some (PyVal.dict [("message", PyVal.dict
        [("text", PyVal.str "hello"),
         ("chat", PyVal.dict [("id", PyVal.int 42)])])])) 1
      = PyVal.dict [("statusCode", PyVal.int 200)] ∧
    bot (some (PyVal.dict [("message", PyVal.dict
        [("text", PyVal.str "hello"),
         ("chat", PyVal.dict [("id", PyVal.int 42)])])])) 1 Option.none
      = ⟨[], Except.ok ("Not a command", 200)⟩ :=
  non_cmd_sends_nothing 1 Option.none rfl (Or.inr ⟨"hello", rfl, rfl⟩)

/-- Looking up a key other than `from` is unaffected by filtering the
`from` entries out of an association list. -/
theorem lookupKey_filter_ne (kvs : List (String × PyVal)) (k : String)
    (h : k ≠ "from") :
    lookupKey (kvs.filter (fun kv => !(kv.1 == "from"))) k = lookupKey kvs k := by
  induction kvs with
  | nil => rfl
  | cons x rest ih =>
    cases x with
    | mk k0 v0 =>
      by_cases hx : k0 = "from"
      · subst hx
        simp [List.filter_cons, lookupKey, Ne.symm h, ih]
      · by_cases hk : k0 = k <;>
          simp [List.filter_cons, hx, lookupKey, hk, ih, h]

/-- Subscripting a message object by a key other than `from` is unaffected
by scrubbing the sender. -/
theorem pyGet_erase (m : PyVal) (k : String) (h : k ≠ "from") :
    pyGet (eraseSender m) k = pyGet m k := by
  cases m <;> simp [eraseSender, pyGet]
  rw [lookupKey_filter_ne _ _ h]

/-- Membership of a key other than `from` is unaffected by scrubbing the
sender. -/
theorem pyIn_erase (m : PyVal) (k : String) (h : k ≠ "from") :
    pyIn k (eraseSender m) = pyIn k m := by
  cases m <;> simp [eraseSender, pyIn]
  rw [lookupKey_filter_ne _ _ h]

/-- The decision logic never reads the sender: it is unchanged by scrubbing
the `from` entry of the message object. -/
theorem dispatchMsg_erase (m : PyVal) (r : Nat) (cat : List String) :
    dispatchMsg (eraseSender m) r cat = dispatchMsg m r cat := by
  unfold dispatchMsg
  rw [pyIn_erase m "text" (by decide), pyGet_erase m "text" (by decide),
    pyGet_erase m "chat" (by decide)]

/-- Looking up `message` after scrubbing the whole payload yields the
scrubbed message object. -/
theorem lookupKey_scrub (kvs : List (String × PyVal)) :
    lookupKey (kvs.map (fun kv =>
        if kv.1 = "message" then (kv.1, eraseSender kv.2) else kv)) "message"
      = (lookupKey kvs "message").map eraseSender := by
  induction kvs with
  | nil => rfl
  | cons x rest ih =>
    cases x with
    | mk k0 v0 =>
      by_cases hk : k0 = "message"
      · subst hk
        simp [List.map_cons, lookupKey, ih]
      · simp only [List.map_cons]
        rw [if_neg hk]
        simp [lookupKey, hk, ih]

/-- Subscripting the payload by `message` commutes with sender scrubbing. -/
theorem pyGet_scrub (wb : PyVal) :
    pyGet (scrubSender wb) "message"
      = (pyGet wb "message").map eraseSender := by
  cases wb <;> simp [scrubSender, pyGet, Except.map]
  rw [lookupKey_scrub]
  cases lookupKey _ "message" <;> simp [Except.map]

/-- Two payloads that agree after sender scrubbing drive the decision logic
identically. -/
theorem dispatch_scrub {wb1 wb2 : PyVal} (r : Nat) (cat : List String)
    (h : scrubSender wb1 = scrubSender wb2) :
    dispatch wb1 r cat = dispatch wb2 r cat := by
  have hg : (pyGet wb1 "message").map eraseSender
      = (pyGet wb2 "message").map eraseSender := by
    rw [← pyGet_scrub, ← pyGet_scrub, h]
  unfold dispatch
  cases e1 : pyGet wb1 "message" <;> cases e2 : pyGet wb2 "message" <;>
    rw [e1, e2] at hg <;> simp [Except.map] at hg
  · rw [hg]
  · rename_i a b
    show dispatchMsg a r cat = dispatchMsg b r cat
    rw [← dispatchMsg_erase a r cat, ← dispatchMsg_erase b r cat, hg]

/-- C9: the handlers never read `message.from.id`.  Any two payloads that
differ only in the value or presence of the sender entry produce the same
handler results under the same draw and response. -/
theorem sender_id_noninterference (wb1 wb2 : PyVal) (r : Nat)
    (tresp : Option PyVal) (h : scrubSender wb1 = scrubSender wb2) :
    quote (some wb1) r = quote (some wb2) r ∧
    bot (some wb1) r tresp = bot (some wb2) r tresp := by
  constructor
  · have hd := dispatch_scrub r chammakisms h
    simp only [quote, hd]
  · have hd := dispatch_scrub r chammakismsMain h
    simp only [bot, hd]

/-- Witness for C9: the scenario payload with sender id 7 against the same
payload with the sender entry absent. -/
theorem sender_id_noninterference_witness :
    quote (some (PyVal.dict [("message", PyVal.dict
        [("text", PyVal.str "/quote"),
         ("chat", PyVal.dict [("id", PyVal.int 42)]),
         ("from", PyVal.dict [("id", PyVal.int 7)])])])) 3
      = quote (some (PyVal.dict [("message", PyVal.dict
        [("text", PyVal.str "/quote"),
         ("chat", PyVal.dict [("id", PyVal.int 42)])])])) 3 ∧
    bot (some (PyVal.dict [("message", PyVal.dict
        [("text", PyVal.str "/quote"),
         ("chat", PyVal.dict [("id", PyVal.int 42)]),
         ("from", PyVal.dict [("id", PyVal.int 7)])])])) 3 Option.none
      = bot (some (PyVal.dict [("message", PyVal.dict
        [("text", PyVal.str "/quote"),
         ("chat", PyVal.dict [("id", PyVal.int 42)])])])) 3 Option.none :=
  sender_id_noninterference _ _ 3 Option.none rfl

end Chammakbot
